import Mathlib

/-
Verification development for the material render-state model of
src/src/scene/materials/material.js (the Material class of the engine).

Shallow embedding conventions:
  - JavaScript objects referenced by identity (shaders, stencil-parameter
    blocks, materials, the owning scene) are modelled by values carrying a
    numeric object id; reference identity is id equality, since ids are
    allocated by monotonic counters and never reused.
  - A JavaScript object used as a string-keyed dictionary (parameters,
    variants) is modelled as an association list whose keys are unique by
    construction, matching the uniqueness of object keys.
  - Mutation is modelled by explicit state passing: every method of the
    class becomes a function from the receiver (and its arguments) to the
    updated receiver.
-/

namespace Engine

/-- Blend factor constants (BLENDMODE_ZERO, BLENDMODE_ONE, ...).
Modelled from the spec: the file graphics/constants.js that defines these
numeric constants is not under src/; the spec describes them as a closed
enumeration of distinct blend factors, so they are modelled as an inductive
enumeration with one constructor per constant imported or documented by
material.js. -/
inductive BlendMode where
  | zero
  | one
  | srcColor
  | oneMinusSrcColor
  | dstColor
  | oneMinusDstColor
  | srcAlpha
  | srcAlphaSaturate
  | oneMinusSrcAlpha
  | dstAlpha
  | oneMinusDstAlpha
deriving DecidableEq, Repr, Fintype

/-- Blend equation constants (BLENDEQUATION_ADD, BLENDEQUATION_MIN, ...).
Modelled from the spec: graphics/constants.js is not under src/; the
constants are distinct members of a closed enumeration. -/
inductive BlendEquation where
  | add
  | subtract
  | reverseSubtract
  | min
  | max
deriving DecidableEq, Repr, Fintype

/-- Blend preset constants (BLEND_NONE, BLEND_NORMAL, ...).
Modelled from the spec: scene/constants.js is not under src/. The ten
presets handled by the blendType setter each get a constructor; the
constructor subtractive models BLEND_SUBTRACTIVE, a preset constant that is
documented at material.js line 36 but has no case in the setter, giving a
representative of the unrecognized preset values. -/
inductive BlendType where
  | subtractive
  | additive
  | normal
  | none
  | premultiplied
  | multiplicative
  | additiveAlpha
  | multiplicative2x
  | screen
  | min
  | max
deriving DecidableEq, Repr, Fintype

/-- Cull mode constants (CULLFACE_NONE, CULLFACE_BACK, ...).
Modelled from the spec: graphics/constants.js is not under src/. -/
inductive CullFace where
  | none
  | back
  | front
  | frontAndBack
deriving DecidableEq, Repr, Fintype

/-- A compiled shader object, referenced by the material.  The field sid is
the object id (reference identity); failed is the shader-compile-failure
flag that Material.update clears (material.js line 324). -/
structure Shader where
  sid : Nat
  failed : Bool
deriving DecidableEq, Repr

/-- The layer composition of the owning scene.  Modelled from the spec: the
scene object is external to src/; the spec describes it as exposing a
single mutable dirty-blend flag, written by the blendType setter as
this._scene.layers._dirtyBlend = true (material.js line 250). -/
structure LayerComposition where
  _dirtyBlend : Bool
deriving DecidableEq, Repr

/-- The owning scene back-reference. Modelled from the spec: only its
layers._dirtyBlend flag is touched by material.js. -/
structure Scene where
  layers : LayerComposition
deriving DecidableEq, Repr

/-- A mesh-instance consumer of a material. Modelled from the spec: the
mesh-instance class is not under src/; the spec says a consumer exposes a
material back-reference field, a sort-key recomputation capability
(updateKey, observed here as a counter of invocations), and a cached
shader-variant slot array (_shader) the material may clear.  The internal
slot _material, written directly by Material.destroy, is modelled as a
field distinct from the public material back-reference, which destroy
assigns separately.  Material references are by material id. -/
structure MeshInstance where
  _shader : List (Option Nat)
  _material : Option Nat
  material : Option Nat
  keyUpdates : Nat
deriving DecidableEq, Repr

/-- Sort-key recomputation on a consumer. Modelled from the spec: the
renderer-side key derivation is external, so the model records only that
the recomputation was invoked, by bumping a counter. -/
def MeshInstance.updateKey (mi : MeshInstance) : MeshInstance :=
  { mi with keyUpdates := mi.keyUpdates + 1 }

/-- An entry of the parameter table: scopeId is the lazily resolved uniform
binding handle (null until setParameters resolves it), data the stored
value (material.js lines 384-387). -/
structure Param where
  scopeId : Option Nat
  data : Int
deriving DecidableEq, Repr

/-- The Material render-state container, one field per field assigned in
the constructor (material.js lines 75-119).  Numeric render-state scalars
are modelled as integers (no arithmetic is performed on them); object
references as options over ids or over the modelled object. -/
structure Material where
  name : String
  id : Nat
  _shader : Option Shader
  variants : List (String × Shader)
  parameters : List (String × Param)
  alphaTest : Int
  alphaToCoverage : Bool
  blend : Bool
  blendSrc : BlendMode
  blendDst : BlendMode
  blendEquation : BlendEquation
  separateAlphaBlend : Bool
  blendSrcAlpha : BlendMode
  blendDstAlpha : BlendMode
  blendAlphaEquation : BlendEquation
  cull : CullFace
  depthTest : Bool
  depthWrite : Bool
  stencilFront : Option Nat
  stencilBack : Option Nat
  depthBias : Int
  slopeDepthBias : Int
  redWrite : Bool
  greenWrite : Bool
  blueWrite : Bool
  alphaWrite : Bool
  meshInstances : List MeshInstance
  _shaderVersion : Nat
  _scene : Option Scene
  _dirtyBlend : Bool
  dirty : Bool
deriving DecidableEq, Repr

namespace Material

/-- The constructor (material.js lines 75-119).  The global monotonic id
counter is modelled by passing the allocated id explicitly. -/
def construct (newId : Nat) : Material :=
  { name := "Untitled"
    id := newId
    _shader := Option.none
    variants := []
    parameters := []
    alphaTest := 0
    alphaToCoverage := false
    blend := false
    blendSrc := BlendMode.one
    blendDst := BlendMode.zero
    blendEquation := BlendEquation.add
    separateAlphaBlend := false
    blendSrcAlpha := BlendMode.one
    blendDstAlpha := BlendMode.zero
    blendAlphaEquation := BlendEquation.add
    cull := CullFace.back
    depthTest := true
    depthWrite := true
    stencilFront := Option.none
    stencilBack := Option.none
    depthBias := 0
    slopeDepthBias := 0
    redWrite := true
    greenWrite := true
    blueWrite := true
    alphaWrite := true
    meshInstances := []
    _shaderVersion := 0
    _scene := Option.none
    _dirtyBlend := false
    dirty := true }

/-- The four fields the blend preset codec reads and writes, in source
order: blend, blendSrc, blendDst, blendEquation. -/
def blendTuple (m : Material) : Bool × BlendMode × BlendMode × BlendEquation :=
  (m.blend, m.blendSrc, m.blendDst, m.blendEquation)

/-- Body of the blendType getter (material.js lines 129-182) as a function
of the four fields it reads: the cascade of exact-tuple tests in source
order (none, normal, additive, additiveAlpha, multiplicative2x, screen,
min, max, multiplicative, premultiplied), falling back to BLEND_NORMAL. -/
def decodeBlend : Bool × BlendMode × BlendMode × BlendEquation → BlendType
  | (blend, blendSrc, blendDst, blendEquation) =>
    if (!blend) && (blendSrc == BlendMode.one) && (blendDst == BlendMode.zero)
        && (blendEquation == BlendEquation.add) then BlendType.none
    else if blend && (blendSrc == BlendMode.srcAlpha) && (blendDst == BlendMode.oneMinusSrcAlpha)
        && (blendEquation == BlendEquation.add) then BlendType.normal
    else if blend && (blendSrc == BlendMode.one) && (blendDst == BlendMode.one)
        && (blendEquation == BlendEquation.add) then BlendType.additive
    else if blend && (blendSrc == BlendMode.srcAlpha) && (blendDst == BlendMode.one)
        && (blendEquation == BlendEquation.add) then BlendType.additiveAlpha
    else if blend && (blendSrc == BlendMode.dstColor) && (blendDst == BlendMode.srcColor)
        && (blendEquation == BlendEquation.add) then BlendType.multiplicative2x
    else if blend && (blendSrc == BlendMode.oneMinusDstColor) && (blendDst == BlendMode.one)
        && (blendEquation == BlendEquation.add) then BlendType.screen
    else if blend && (blendSrc == BlendMode.one) && (blendDst == BlendMode.one)
        && (blendEquation == BlendEquation.min) then BlendType.min
    else if blend && (blendSrc == BlendMode.one) && (blendDst == BlendMode.one)
        && (blendEquation == BlendEquation.max) then BlendType.max
    else if blend && (blendSrc == BlendMode.dstColor) && (blendDst == BlendMode.zero)
        && (blendEquation == BlendEquation.add) then BlendType.multiplicative
    else if blend && (blendSrc == BlendMode.one) && (blendDst == BlendMode.oneMinusSrcAlpha)
        && (blendEquation == BlendEquation.add) then BlendType.premultiplied
    else BlendType.normal

/-- The blendType getter (material.js lines 129-182). -/
def get_blendType (m : Material) : BlendType :=
  decodeBlend (blendTuple m)

/-- The switch body of the blendType setter (material.js lines 186-247):
for each recognized preset, overwrite blend, blendSrc, blendDst and
blendEquation with the tuple of that preset; an unrecognized value falls
through the switch and leaves the state unchanged. -/
def applyPresetFields (m : Material) (type : BlendType) : Material :=
  match type with
  | BlendType.none =>
      { m with blend := false, blendSrc := BlendMode.one,
               blendDst := BlendMode.zero, blendEquation := BlendEquation.add }
  | BlendType.normal =>
      { m with blend := true, blendSrc := BlendMode.srcAlpha,
               blendDst := BlendMode.oneMinusSrcAlpha, blendEquation := BlendEquation.add }
  | BlendType.premultiplied =>
      { m with blend := true, blendSrc := BlendMode.one,
               blendDst := BlendMode.oneMinusSrcAlpha, blendEquation := BlendEquation.add }
  | BlendType.additive =>
      { m with blend := true, blendSrc := BlendMode.one,
               blendDst := BlendMode.one, blendEquation := BlendEquation.add }
  | BlendType.additiveAlpha =>
      { m with blend := true, blendSrc := BlendMode.srcAlpha,
               blendDst := BlendMode.one, blendEquation := BlendEquation.add }
  | BlendType.multiplicative2x =>
      { m with blend := true, blendSrc := BlendMode.dstColor,
               blendDst := BlendMode.srcColor, blendEquation := BlendEquation.add }
  | BlendType.screen =>
      { m with blend := true, blendSrc := BlendMode.oneMinusDstColor,
               blendDst := BlendMode.one, blendEquation := BlendEquation.add }
  | BlendType.multiplicative =>
      { m with blend := true, blendSrc := BlendMode.dstColor,
               blendDst := BlendMode.zero, blendEquation := BlendEquation.add }
  | BlendType.min =>
      { m with blend := true, blendSrc := BlendMode.one,
               blendDst := BlendMode.one, blendEquation := BlendEquation.min }
  | BlendType.max =>
      { m with blend := true, blendSrc := BlendMode.one,
               blendDst := BlendMode.one, blendEquation := BlendEquation.max }
  | BlendType.subtractive => m

/-- Sort-key fan-out (material.js lines 303-308): invoke updateKey on every
consumer in the mesh-instance list. -/
def _updateMeshInstanceKeys (m : Material) : Material :=
  { m with meshInstances := m.meshInstances.map MeshInstance.updateKey }

/-- The blendType setter (material.js lines 184-256): apply the preset
tuple via the switch; if the blend-enabled flag changed, raise the
dirty-blend signal on the scene layer composition when a scene
back-reference is present, on the local _dirtyBlend flag otherwise;
finally recompute every consumer sort key. -/
def set_blendType (m : Material) (type : BlendType) : Material :=
  let prevBlend := m.blend
  let m1 := applyPresetFields m type
  let m2 :=
    if prevBlend != m1.blend then
      match m1._scene with
      | Option.some scene =>
          let scene2 := { scene with layers := { scene.layers with _dirtyBlend := true } }
          { m1 with _scene := Option.some scene2 }
      | Option.none => { m1 with _dirtyBlend := true }
    else m1
  _updateMeshInstanceKeys m2

/-- The ten presets handled by the blendType setter, in the order the spec
lists them. -/
def definedPresets : List BlendType :=
  [BlendType.none, BlendType.normal, BlendType.premultiplied, BlendType.additive,
   BlendType.additiveAlpha, BlendType.multiplicative2x, BlendType.screen,
   BlendType.multiplicative, BlendType.min, BlendType.max]

/-- The tuple the setter writes for a recognized preset (derived from the
switch of the setter); Option.none for an unrecognized value. -/
def presetTuple : BlendType → Option (Bool × BlendMode × BlendMode × BlendEquation)
  | BlendType.none => Option.some (false, BlendMode.one, BlendMode.zero, BlendEquation.add)
  | BlendType.normal =>
      Option.some (true, BlendMode.srcAlpha, BlendMode.oneMinusSrcAlpha, BlendEquation.add)
  | BlendType.premultiplied =>
      Option.some (true, BlendMode.one, BlendMode.oneMinusSrcAlpha, BlendEquation.add)
  | BlendType.additive => Option.some (true, BlendMode.one, BlendMode.one, BlendEquation.add)
  | BlendType.additiveAlpha =>
      Option.some (true, BlendMode.srcAlpha, BlendMode.one, BlendEquation.add)
  | BlendType.multiplicative2x =>
      Option.some (true, BlendMode.dstColor, BlendMode.srcColor, BlendEquation.add)
  | BlendType.screen =>
      Option.some (true, BlendMode.oneMinusDstColor, BlendMode.one, BlendEquation.add)
  | BlendType.multiplicative =>
      Option.some (true, BlendMode.dstColor, BlendMode.zero, BlendEquation.add)
  | BlendType.min => Option.some (true, BlendMode.one, BlendMode.one, BlendEquation.min)
  | BlendType.max => Option.some (true, BlendMode.one, BlendMode.one, BlendEquation.max)
  | BlendType.subtractive => Option.none

/-- The ten tuples of the preset table. -/
def presetTuples : List (Bool × BlendMode × BlendMode × BlendEquation) :=
  definedPresets.filterMap presetTuple

/-- The clone body (material.js lines 258-295): copy name, shader reference
and the render-state fields onto the target; stencil blocks are cloned via
their own clone operation, which allocates a fresh object, modelled by the
explicitly passed fresh ids fsF and fsB; when the two source blocks are the
same object, the target gets the single freshly cloned front block for both
fields. -/
def _cloneInternal (m : Material) (clone : Material) (fsF fsB : Nat) : Material :=
  let clone := { clone with
    name := m.name
    _shader := m._shader
    alphaTest := m.alphaTest
    alphaToCoverage := m.alphaToCoverage
    blend := m.blend
    blendSrc := m.blendSrc
    blendDst := m.blendDst
    blendEquation := m.blendEquation
    separateAlphaBlend := m.separateAlphaBlend
    blendSrcAlpha := m.blendSrcAlpha
    blendDstAlpha := m.blendDstAlpha
    blendAlphaEquation := m.blendAlphaEquation
    cull := m.cull
    depthTest := m.depthTest
    depthWrite := m.depthWrite
    depthBias := m.depthBias
    slopeDepthBias := m.slopeDepthBias }
  let clone :=
    if m.stencilFront.isSome then { clone with stencilFront := Option.some fsF } else clone
  let clone :=
    if m.stencilBack.isSome then
      if m.stencilFront = m.stencilBack then
        { clone with stencilBack := clone.stencilFront }
      else
        { clone with stencilBack := Option.some fsB }
    else clone
  { clone with
    redWrite := m.redWrite
    greenWrite := m.greenWrite
    blueWrite := m.blueWrite
    alphaWrite := m.alphaWrite }

/-- The clone method (material.js lines 297-301): construct a fresh
material (with a freshly allocated id) and copy the state onto it. -/
def clone (m : Material) (newId fsF fsB : Nat) : Material :=
  _cloneInternal m (construct newId) fsF fsB

/-- The update method (material.js lines 322-325): set the dirty flag and
clear the compile-failure flag on the attached shader, when present. -/
def update (m : Material) : Material :=
  { m with dirty := true
           _shader := m._shader.map (fun s => { s with failed := false }) }

/-- clearParameters (material.js lines 328-330). -/
def clearParameters (m : Material) : Material :=
  { m with parameters := [] }

/-- getParameters (material.js lines 332-334). -/
def getParameters (m : Material) : List (String × Param) :=
  m.parameters

/-- clearVariants (material.js lines 336-346): drop the variant cache and
null every cached shader-variant slot of every consumer. -/
def clearVariants (m : Material) : Material :=
  { m with variants := []
           meshInstances := m.meshInstances.map
             (fun mi => { mi with _shader := mi._shader.map (fun _ => Option.none) }) }

/-- Dictionary access on the string-keyed parameter object: the entry
stored under the name, when present.  The association list always carries
at most one entry per key, as a JavaScript object does. -/
def lookupParam : List (String × Param) → String → Option Param
  | [], _ => Option.none
  | p :: ps, name => if p.1 = name then Option.some p.2 else lookupParam ps name

/-- getParameter (material.js lines 355-357): dictionary access, returning
nothing when the name is absent. -/
def getParameter (m : Material) (name : String) : Option Param :=
  lookupParam m.parameters name

/-- Upsert on the parameter dictionary (material.js lines 380-388): when an
entry with the name exists its data field is overwritten in place, keeping
its resolved scopeId; otherwise a fresh entry with a null scopeId is
added. -/
def upsertParams (ps : List (String × Param)) (name : String) (data : Int) :
    List (String × Param) :=
  match lookupParam ps name with
  | Option.some _ =>
      ps.map (fun p => if p.1 = name then (p.1, { p.2 with data := data }) else p)
  | Option.none => ps ++ [(name, { scopeId := Option.none, data := data })]

/-- setParameter with a name and a value (material.js lines 366-389, the
plain form; the object form with an embedded value destructures to this
same code path). -/
def setParameter (m : Material) (name : String) (data : Int) : Material :=
  { m with parameters := upsertParams m.parameters name data }

/-- setParameter with an array of name-value objects (material.js lines
370-375): apply the object form to each element in order. -/
def setParameterBatch (m : Material) : List (String × Int) → Material
  | [] => m
  | (name, data) :: rest => (setParameter m name data).setParameterBatch rest

/-- deleteParameter (material.js lines 397-401): remove the entry with the
name when present, no-op otherwise. -/
def deleteParameter (m : Material) (name : String) : Material :=
  { m with parameters := m.parameters.filter (fun p => p.1 != name) }

/-- setParameters (material.js lines 405-417): for each requested name with
an entry in the table, resolve the uniform binding handle once (keeping an
already resolved handle) and push the value through it.  The device scope
resolver is the external capability resolve; the push of the value to the
device is a device-side effect with no footprint on the material beyond
the memoized scopeId. -/
def setParameters (m : Material) (resolve : String → Nat) (names : List String) : Material :=
  names.foldl
    (fun acc pname =>
      match lookupParam acc.parameters pname with
      | Option.some parameter =>
          let sid := match parameter.scopeId with
            | Option.some s => s
            | Option.none => resolve pname
          let ps := acc.parameters.map
            (fun p => if p.1 = pname then (p.1, { p.2 with scopeId := Option.some sid }) else p)
          { acc with parameters := ps }
      | Option.none => acc)
    m

/-- Per-consumer effect of destroy (material.js lines 430-438): null every
cached shader-variant slot, null the internal _material slot directly, and
reassign the public material back-reference to the default material unless
the destroyed material is itself the default material (reference identity,
modelled by id equality; a null default material is never identical to the
destroyed material, so the back-reference is then assigned null). -/
def destroyMeshInstance (selfId : Nat) (defaultMaterial : Option Nat)
    (mi : MeshInstance) : MeshInstance :=
  let mi := { mi with _shader := mi._shader.map (fun _ => Option.none)
                      _material := Option.none }
  if defaultMaterial != Option.some selfId then { mi with material := defaultMaterial } else mi

/-- The destroy method (material.js lines 424-440): drop the variant cache,
clear the shader reference, and apply the per-consumer effect to every
consumer in the mesh-instance list (which is itself left with the same
consumers).  The static Material.defaultMaterial is modelled as an
explicitly passed optional material reference. -/
def destroy (m : Material) (defaultMaterial : Option Nat) : Material :=
  { m with variants := []
           _shader := Option.none
           meshInstances := m.meshInstances.map (destroyMeshInstance m.id defaultMaterial) }

end Material

open Material

/-- The setter switch writes exactly the tuple of the preset table, leaving
the state unchanged for an unrecognized preset. -/
theorem blendTuple_applyPresetFields (m : Material) (t : BlendType) :
    blendTuple (applyPresetFields m t) = (presetTuple t).getD (blendTuple m) := by
  cases t <;> rfl

/-- The dirty-flag bookkeeping and consumer fan-out of the blendType setter
do not change the blend configuration tuple. -/
theorem blendTuple_set_blendType (m : Material) (t : BlendType) :
    blendTuple (set_blendType m t) = blendTuple (applyPresetFields m t) := by
  unfold set_blendType _updateMeshInstanceKeys
  dsimp only
  split
  · split <;> rfl
  · rfl

/-- The setter switch touches only the four blend fields: the consumer
list, scene back-reference, local dirty-blend flag and top-level dirty flag
are untouched. -/
theorem applyPresetFields_frame (m : Material) (t : BlendType) :
    (applyPresetFields m t).meshInstances = m.meshInstances ∧
    (applyPresetFields m t)._scene = m._scene ∧
    (applyPresetFields m t)._dirtyBlend = m._dirtyBlend ∧
    (applyPresetFields m t).dirty = m.dirty := by
  cases t <;> exact ⟨rfl, rfl, rfl, rfl⟩

/-- C1: for every material state and each of the ten defined blend presets
P, reading the preset after applying it returns P: the blendType getter
applied to the result of the blendType setter returns the preset that was
set. -/
theorem preset_round_trip (m : Material) (t : BlendType) (ht : t ∈ definedPresets) :
    get_blendType (set_blendType m t) = t := by
  have h := blendTuple_set_blendType m t
  unfold get_blendType
  rw [h, blendTuple_applyPresetFields]
  fin_cases ht <;> rfl

theorem preset_round_trip_witness :
    get_blendType (set_blendType (Material.construct 0) BlendType.additive) =
      BlendType.additive :=
  preset_round_trip (Material.construct 0) BlendType.additive (by decide)

/-- Every tuple outside the ten-entry table fails every test of the getter
cascade, so the cascade falls through to its final default. -/
theorem decode_off_table (b : Bool) (s d : BlendMode) (e : BlendEquation)
    (h : (b, s, d, e) ∉ presetTuples) :
    decodeBlend (b, s, d, e) = BlendType.normal := by
  revert h
  cases b <;> cases s <;> cases d <;> cases e <;> decide

/-- C2: for every material whose (blend, blendSrc, blendDst, blendEquation)
tuple does not equal any of the ten tuples of the preset table, the
blendType getter returns BLEND_NORMAL rather than an error. -/
theorem preset_fallback_normal (m : Material) (h : blendTuple m ∉ presetTuples) :
    get_blendType m = BlendType.normal := by
  have key := decode_off_table m.blend m.blendSrc m.blendDst m.blendEquation
  exact key h

theorem preset_fallback_normal_witness :
    get_blendType { Material.construct 0 with blend := true, blendSrc := BlendMode.zero } =
      BlendType.normal :=
  preset_fallback_normal
    { Material.construct 0 with blend := true, blendSrc := BlendMode.zero } (by decide)

/-- The blend-enabled flag written by the switch for a recognized preset is
the first component of the preset tuple. -/
theorem applyPresetFields_blend (m : Material) (t : BlendType)
    (tup : Bool × BlendMode × BlendMode × BlendEquation)
    (hrec : presetTuple t = Option.some tup) :
    (applyPresetFields m t).blend = tup.1 := by
  cases t <;> simp [presetTuple] at hrec <;> simp [applyPresetFields, ← hrec]

/-- C4: applying a preset whose tuple flips the blend-enabled flag routes
the dirty-blend signal to the scene layer composition when a scene
back-reference is present (local flag untouched), and to the local
_dirtyBlend flag when no scene is attached (scene reference stays
absent). -/
theorem blend_dirty_routing (m : Material) (t : BlendType)
    (tup : Bool × BlendMode × BlendMode × BlendEquation)
    (hrec : presetTuple t = Option.some tup) (hflip : tup.1 ≠ m.blend) :
    (set_blendType m t)._scene =
      m._scene.map (fun s => { s with layers := { s.layers with _dirtyBlend := true } }) ∧
    (set_blendType m t)._dirtyBlend = (if m._scene.isSome then m._dirtyBlend else true) := by
  have hb : (applyPresetFields m t).blend = tup.1 := applyPresetFields_blend m t tup hrec
  have hsc := (applyPresetFields_frame m t).2.1
  have hdb := (applyPresetFields_frame m t).2.2.1
  have hcond : (m.blend != (applyPresetFields m t).blend) = true := by
    rw [hb]
    exact bne_iff_ne.mpr (fun e => hflip e.symm)
  unfold set_blendType _updateMeshInstanceKeys
  dsimp only
  rw [hcond]
  simp only [if_true]
  rcases hs : m._scene with _ | s
  · rw [hsc, hs]
    simp
  · rw [hsc, hs]
    simp [hdb, hs]

theorem blend_dirty_routing_witness :
    (set_blendType
        { Material.construct 0 with _scene := Option.some { layers := { _dirtyBlend := false } } }
        BlendType.normal)._scene =
      Option.some { layers := { _dirtyBlend := true } } ∧
    (set_blendType
        { Material.construct 0 with _scene := Option.some { layers := { _dirtyBlend := false } } }
        BlendType.normal)._dirtyBlend = false :=
  blend_dirty_routing
    { Material.construct 0 with _scene := Option.some { layers := { _dirtyBlend := false } } }
    BlendType.normal (true, BlendMode.srcAlpha, BlendMode.oneMinusSrcAlpha, BlendEquation.add)
    rfl (by decide)

/-- C5: the blendType setter invoked with a value outside the ten defined
presets leaves blend, blendSrc, blendDst and blendEquation unchanged and
raises no dirty-blend signal, neither locally nor on the scene. -/
theorem unknown_preset_no_change (m : Material) (t : BlendType)
    (h : t ∉ definedPresets) :
    (set_blendType m t).blend = m.blend ∧
    (set_blendType m t).blendSrc = m.blendSrc ∧
    (set_blendType m t).blendDst = m.blendDst ∧
    (set_blendType m t).blendEquation = m.blendEquation ∧
    (set_blendType m t)._dirtyBlend = m._dirtyBlend ∧
    (set_blendType m t)._scene = m._scene := by
  have ht : t = BlendType.subtractive := by
    revert h
    cases t <;> decide
  subst ht
  unfold set_blendType applyPresetFields _updateMeshInstanceKeys
  dsimp only
  simp

theorem unknown_preset_no_change_witness :
    (set_blendType (Material.construct 0) BlendType.subtractive).blend =
      (Material.construct 0).blend ∧
    (set_blendType (Material.construct 0) BlendType.subtractive).blendSrc =
      (Material.construct 0).blendSrc ∧
    (set_blendType (Material.construct 0) BlendType.subtractive).blendDst =
      (Material.construct 0).blendDst ∧
    (set_blendType (Material.construct 0) BlendType.subtractive).blendEquation =
      (Material.construct 0).blendEquation ∧
    (set_blendType (Material.construct 0) BlendType.subtractive)._dirtyBlend =
      (Material.construct 0)._dirtyBlend ∧
    (set_blendType (Material.construct 0) BlendType.subtractive)._scene =
      (Material.construct 0)._scene :=
  unknown_preset_no_change (Material.construct 0) BlendType.subtractive (by decide)

/-- C6: for every material and every preset argument, recognized or not and
whether or not the enabled flag changes, the blendType setter invokes
sort-key recomputation on every consumer in the mesh-instance list. -/
theorem set_blendType_updates_keys (m : Material) (t : BlendType) :
    (set_blendType m t).meshInstances = m.meshInstances.map MeshInstance.updateKey := by
  have hmi := (applyPresetFields_frame m t).1
  unfold set_blendType _updateMeshInstanceKeys
  dsimp only
  split
  · split <;> simp [hmi]
  · simp [hmi]

/-- C3: destroy drops all variant cache entries, clears the shader
reference, and applies its per-consumer effect to every consumer; the
per-consumer effect reassigns the public material back-reference to the
default material, unless the destroyed material is itself the default
material, in which case the back-reference is left unchanged. -/
theorem destroy_reassigns_consumers (m : Material) (d : Option Nat) :
    (m.destroy d).variants = [] ∧
    (m.destroy d)._shader = Option.none ∧
    (m.destroy d).meshInstances = m.meshInstances.map (destroyMeshInstance m.id d) ∧
    ∀ mi : MeshInstance,
      (d ≠ Option.some m.id → (destroyMeshInstance m.id d mi).material = d) ∧
      (d = Option.some m.id → (destroyMeshInstance m.id d mi).material = mi.material) := by
  refine ⟨rfl, rfl, rfl, fun mi => ⟨?_, ?_⟩⟩
  · intro hne
    unfold destroyMeshInstance
    dsimp only
    rw [if_pos (bne_iff_ne.mpr hne)]
  · intro heq
    unfold destroyMeshInstance
    dsimp only
    rw [if_neg]
    simp [heq]

/-- Example consumer used by concrete witnesses. -/
def exMesh : MeshInstance :=
  { _shader := [Option.some 7, Option.none], _material := Option.some 3,
    material := Option.some 3, keyUpdates := 0 }

theorem destroy_reassigns_consumers_witness :
    (destroyMeshInstance ({ Material.construct 3 with
        meshInstances := [exMesh, exMesh] } : Material).id (Option.some 99) exMesh).material =
      Option.some 99 :=
  ((destroy_reassigns_consumers
      { Material.construct 3 with meshInstances := [exMesh, exMesh] }
      (Option.some 99)).2.2.2 exMesh).1 (by decide)

/-- The per-consumer effect of destroy is idempotent. -/
theorem destroyMeshInstance_idem (selfId : Nat) (d : Option Nat) (mi : MeshInstance) :
    destroyMeshInstance selfId d (destroyMeshInstance selfId d mi) =
      destroyMeshInstance selfId d mi := by
  unfold destroyMeshInstance
  dsimp only
  by_cases hc : (d != Option.some selfId) = true
  · simp only [hc, if_true]
    simp [List.map_map]
  · simp only [hc, if_false]
    simp [List.map_map]

/-- C10: destroy removes no entry from the mesh-instance consumer list: the
list after destroy is the pointwise image of the same consumers, with the
same length, and a second destroy leaves the material in exactly the state
the first produced. -/
theorem destroy_preserves_consumer_list (m : Material) (d : Option Nat) :
    (m.destroy d).meshInstances = m.meshInstances.map (destroyMeshInstance m.id d) ∧
    (m.destroy d).meshInstances.length = m.meshInstances.length ∧
    (m.destroy d).destroy d = m.destroy d := by
  refine ⟨rfl, by simp [Material.destroy], ?_⟩
  unfold Material.destroy
  dsimp only
  rw [List.map_map]
  congr 1
  exact List.map_congr_left (fun mi _ => destroyMeshInstance_idem m.id d mi)

/-- C7: clone produces a material whose render-state fields equal the
source fields, whose shader reference is the same shader object, and whose
parameter table, consumer list and variant cache start empty; when the
source aliases one stencil block for both faces, the clone again shares a
single freshly cloned block for both fields. -/
theorem clone_state_and_alias (m : Material) (newId fsF fsB : Nat) :
    (m.stencilFront = m.stencilBack → m.stencilFront.isSome = true →
      (m.clone newId fsF fsB).stencilFront = Option.some fsF ∧
      (m.clone newId fsF fsB).stencilBack = (m.clone newId fsF fsB).stencilFront) ∧
    (m.clone newId fsF fsB).name = m.name ∧
    (m.clone newId fsF fsB)._shader = m._shader ∧
    (m.clone newId fsF fsB).alphaTest = m.alphaTest ∧
    (m.clone newId fsF fsB).alphaToCoverage = m.alphaToCoverage ∧
    (m.clone newId fsF fsB).blend = m.blend ∧
    (m.clone newId fsF fsB).blendSrc = m.blendSrc ∧
    (m.clone newId fsF fsB).blendDst = m.blendDst ∧
    (m.clone newId fsF fsB).blendEquation = m.blendEquation ∧
    (m.clone newId fsF fsB).separateAlphaBlend = m.separateAlphaBlend ∧
    (m.clone newId fsF fsB).blendSrcAlpha = m.blendSrcAlpha ∧
    (m.clone newId fsF fsB).blendDstAlpha = m.blendDstAlpha ∧
    (m.clone newId fsF fsB).blendAlphaEquation = m.blendAlphaEquation ∧
    (m.clone newId fsF fsB).cull = m.cull ∧
    (m.clone newId fsF fsB).depthTest = m.depthTest ∧
    (m.clone newId fsF fsB).depthWrite = m.depthWrite ∧
    (m.clone newId fsF fsB).depthBias = m.depthBias ∧
    (m.clone newId fsF fsB).slopeDepthBias = m.slopeDepthBias ∧
    (m.clone newId fsF fsB).redWrite = m.redWrite ∧
    (m.clone newId fsF fsB).greenWrite = m.greenWrite ∧
    (m.clone newId fsF fsB).blueWrite = m.blueWrite ∧
    (m.clone newId fsF fsB).alphaWrite = m.alphaWrite ∧
    (m.clone newId fsF fsB).parameters = [] ∧
    (m.clone newId fsF fsB).meshInstances = [] ∧
    (m.clone newId fsF fsB).variants = [] := by
  unfold Material.clone Material._cloneInternal Material.construct
  dsimp only
  rcases hf : m.stencilFront with _ | a
  · rcases hb : m.stencilBack with _ | b
    · simp
    · simp
  · rcases hb : m.stencilBack with _ | b
    · simp
    · by_cases hab : a = b
      · subst hab
        simp
      · simp [hab]

/-- Example material with an aliased stencil block, used by a concrete
witness. -/
def exAlias : Material :=
  { Material.construct 4 with stencilFront := Option.some 11, stencilBack := Option.some 11 }

theorem clone_state_and_alias_witness :
    (exAlias.clone 5 21 22).stencilFront = Option.some 21 ∧
    (exAlias.clone 5 21 22).stencilBack = (exAlias.clone 5 21 22).stencilFront :=
  (clone_state_and_alias exAlias 5 21 22).1 rfl rfl

/-- Number of entries stored under a name in the parameter table. -/
def countName : List (String × Param) → String → Nat
  | [], _ => 0
  | p :: ps, n => (if p.1 = n then 1 else 0) + countName ps n

theorem countName_append (ps qs : List (String × Param)) (n : String) :
    countName (ps ++ qs) n = countName ps n + countName qs n := by
  induction ps with
  | nil => simp [countName]
  | cons p ps ih => simp [countName, ih]; omega

theorem countName_eq_zero_of_lookup_none (ps : List (String × Param)) (n : String)
    (h : lookupParam ps n = Option.none) : countName ps n = 0 := by
  induction ps with
  | nil => rfl
  | cons p ps ih =>
      by_cases hp : p.1 = n
      · simp [lookupParam, hp] at h
      · simp [lookupParam, hp] at h
        simp [countName, hp, ih h]

theorem one_le_countName_of_lookup_some (ps : List (String × Param)) (n : String)
    (p0 : Param) (h : lookupParam ps n = Option.some p0) : 1 ≤ countName ps n := by
  induction ps with
  | nil => simp [lookupParam] at h
  | cons q ps ih =>
      by_cases hq : q.1 = n
      · simp [countName, hq]
      · simp [lookupParam, hq] at h
        simp [countName, hq]
        exact ih h

theorem countName_upsert_map (ps : List (String × Param)) (n n0 : String) (d : Int) :
    countName (ps.map (fun p => if p.1 = n then (p.1, { p.2 with data := d }) else p)) n0 =
      countName ps n0 := by
  induction ps with
  | nil => rfl
  | cons p ps ih =>
      by_cases hp : p.1 = n <;> simp [countName, hp, ih]

theorem lookup_upsert_map (ps : List (String × Param)) (n : String) (d : Int) :
    lookupParam (ps.map (fun p => if p.1 = n then (p.1, { p.2 with data := d }) else p)) n =
      (lookupParam ps n).map (fun q => { q with data := d }) := by
  induction ps with
  | nil => rfl
  | cons p ps ih =>
      by_cases hp : p.1 = n <;> simp [lookupParam, hp, ih]

theorem lookup_append_of_none (ps qs : List (String × Param)) (n : String)
    (h : lookupParam ps n = Option.none) :
    lookupParam (ps ++ qs) n = lookupParam qs n := by
  induction ps with
  | nil => rfl
  | cons p ps ih =>
      by_cases hp : p.1 = n
      · simp [lookupParam, hp] at h
      · simp [lookupParam, hp] at h ⊢
        exact ih h

/-- The upserted entry holds the newly stored value. -/
theorem lookup_upsert_self (ps : List (String × Param)) (n : String) (d : Int) :
    (lookupParam (upsertParams ps n d) n).map Param.data = Option.some d := by
  unfold upsertParams
  cases h : lookupParam ps n with
  | some p =>
      dsimp only
      rw [lookup_upsert_map, h]
      rfl
  | none =>
      dsimp only
      rw [lookup_append_of_none ps _ n h]
      simp [lookupParam]

/-- If the table held at most one entry under the name, the upserted table
holds exactly one. -/
theorem countName_upsert_self (ps : List (String × Param)) (n : String) (d : Int)
    (hwf : countName ps n ≤ 1) : countName (upsertParams ps n d) n = 1 := by
  unfold upsertParams
  cases h : lookupParam ps n with
  | none =>
      dsimp only
      rw [countName_append, countName_eq_zero_of_lookup_none ps n h]
      simp [countName]
  | some p =>
      dsimp only
      rw [countName_upsert_map]
      have h1 := one_le_countName_of_lookup_some ps n p h
      omega

/-- C8: setParameter upserts by name: storing uFoo and then re-storing it
through the batch form leaves exactly one entry under uFoo, holding the
later value; the batch form applies each name-value pair in order. -/
theorem setParameter_upsert (m : Material)
    (hwf : ∀ n, countName m.parameters n ≤ 1) :
    countName ((m.setParameter "uFoo" 1).setParameterBatch
        [("uFoo", 2)]).parameters "uFoo" = 1 ∧
    (getParameter ((m.setParameter "uFoo" 1).setParameterBatch
        [("uFoo", 2)]) "uFoo").map Param.data = Option.some 2 := by
  have h1 : countName (upsertParams m.parameters "uFoo" 1) "uFoo" = 1 :=
    countName_upsert_self m.parameters "uFoo" 1 (hwf "uFoo")
  constructor
  · show countName (upsertParams (upsertParams m.parameters "uFoo" 1) "uFoo" 2) "uFoo" = 1
    exact countName_upsert_self _ "uFoo" 2 (le_of_eq h1)
  · show (lookupParam (upsertParams (upsertParams m.parameters "uFoo" 1) "uFoo" 2)
        "uFoo").map Param.data = Option.some 2
    exact lookup_upsert_self _ "uFoo" 2

theorem setParameter_upsert_witness :
    countName (((Material.construct 0).setParameter "uFoo" 1).setParameterBatch
        [("uFoo", 2)]).parameters "uFoo" = 1 ∧
    (getParameter (((Material.construct 0).setParameter "uFoo" 1).setParameterBatch
        [("uFoo", 2)]) "uFoo").map Param.data = Option.some 2 :=
  setParameter_upsert (Material.construct 0) (fun _ => Nat.zero_le 1)

/-- The blendType setter never writes the top-level dirty flag. -/
theorem set_blendType_dirty (m : Material) (t : BlendType) :
    (set_blendType m t).dirty = m.dirty := by
  have hd := (applyPresetFields_frame m t).2.2.2
  unfold set_blendType _updateMeshInstanceKeys
  dsimp only
  split
  · split <;> simp [hd]
  · simp [hd]

/-- The clone body copies state without touching the dirty flag of the
target. -/
theorem _cloneInternal_dirty (m c : Material) (fsF fsB : Nat) :
    (Material._cloneInternal m c fsF fsB).dirty = c.dirty := by
  unfold Material._cloneInternal
  dsimp only
  split_ifs <;> rfl

/-- A fold over names that leaves the dirty flag of the accumulator alone
leaves the dirty flag of the result alone. -/
theorem foldl_dirty_invariant (step : Material → String → Material)
    (hstep : ∀ acc n, (step acc n).dirty = acc.dirty) :
    ∀ (names : List String) (m : Material), (names.foldl step m).dirty = m.dirty := by
  intro names
  induction names with
  | nil => intro m; rfl
  | cons n ns ih =>
      intro m
      rw [List.foldl_cons, ih, hstep]

/-- setParameters only memoizes binding handles; the dirty flag is
untouched. -/
theorem setParameters_dirty (m : Material) (resolve : String → Nat)
    (names : List String) : (m.setParameters resolve names).dirty = m.dirty := by
  refine foldl_dirty_invariant _ ?_ names m
  intro acc n
  dsimp only
  rcases h : lookupParam acc.parameters n with _ | p <;> simp [h]

/-- C9: the top-level dirty flag is true at construction and stays true
across every operation of the class: the blendType setter, update, clone
(on the new instance), setParameter in both forms, deleteParameter,
clearParameters, clearVariants, setParameters and destroy. -/
theorem dirty_invariant (m : Material) (h : m.dirty = true) (t : BlendType)
    (i fA fB : Nat) (pname : String) (pdata : Int) (resolve : String → Nat)
    (names : List String) (d : Option Nat) :
    (Material.construct i).dirty = true ∧
    (m.set_blendType t).dirty = true ∧
    m.update.dirty = true ∧
    (m.clone i fA fB).dirty = true ∧
    (m.setParameter pname pdata).dirty = true ∧
    (m.setParameterBatch [(pname, pdata)]).dirty = true ∧
    (m.deleteParameter pname).dirty = true ∧
    m.clearParameters.dirty = true ∧
    m.clearVariants.dirty = true ∧
    (m.setParameters resolve names).dirty = true ∧
    (m.destroy d).dirty = true := by
  refine ⟨rfl, ?_, rfl, ?_, h, h, h, h, h, ?_, h⟩
  · rw [set_blendType_dirty]; exact h
  · rw [Material.clone, _cloneInternal_dirty]; rfl
  · rw [setParameters_dirty]; exact h

theorem dirty_invariant_witness :
    (Material.construct 7).dirty = true ∧
    ((Material.construct 0).set_blendType BlendType.additive).dirty = true ∧
    (Material.construct 0).update.dirty = true ∧
    ((Material.construct 0).clone 7 8 9).dirty = true ∧
    ((Material.construct 0).setParameter "uFoo" 1).dirty = true ∧
    ((Material.construct 0).setParameterBatch [("uFoo", 1)]).dirty = true ∧
    ((Material.construct 0).deleteParameter "uFoo").dirty = true ∧
    (Material.construct 0).clearParameters.dirty = true ∧
    (Material.construct 0).clearVariants.dirty = true ∧
    ((Material.construct 0).setParameters (fun _ => 0) ["uFoo"]).dirty = true ∧
    ((Material.construct 0).destroy Option.none).dirty = true :=
  dirty_invariant (Material.construct 0) rfl BlendType.additive 7 8 9 "uFoo" 1
    (fun _ => 0) ["uFoo"] Option.none

end Engine
